import Mathlib

/-!
Verification development for the YouTube assistant pipeline
(`app.py`, `transcription.py`, `audio_processing.py`, `rag_pipeline.py`,
`qa_system.py`).  Pure Python functions are embedded as Lean functions on
`String` / `List` / `Nat`; the stateful parts (disk cache files, the
in-process memory cache, conversation histories, the Chroma collections)
are embedded as explicit record-passing over association lists keyed by
file / collection / session names.  External capabilities (speech-to-text
results, the chat-completion service, the retrieved vector context, the
language detector) are parameters of the embedded functions; the md5
fingerprint of a key string is modelled by the key string itself (md5 is
treated as injective, so equality / inequality of fingerprints is equality
/ inequality of the hashed strings).  Python `int(x/y)` on nonnegative
counts is modelled by `Nat` division; wall-clock floating point (elapsed
time, the ETA estimate) is not modelled.
-/

/-! ### Small Python-style string helpers (ASCII semantics, as in the repo data) -/

/-- Python `str.lower` restricted to ASCII, applied characterwise. -/
def pyLower (s : String) : String := ⟨s.data.map Char.toLower⟩

/-- A regex word character `\w`: letters, digits, underscore (ASCII). -/
def isWordChar (c : Char) : Bool := c.isAlphanum || c == '_'

/-- Drop leading whitespace from a character list. -/
def dropWS (l : List Char) : List Char := l.dropWhile Char.isWhitespace

/-- Python `str.strip`: whitespace removed from both ends. -/
def pyStrip (s : String) : String := ⟨(dropWS (dropWS s.data.reverse).reverse)⟩

/-- Python `str.rstrip`: whitespace removed from the right end. -/
def pyRstrip (s : String) : String := ⟨(dropWS s.data.reverse).reverse⟩

/-- Split a character list at every occurrence of `sep`, keeping empty pieces,
like Python `str.split(sep)` for a one-character separator. -/
def splitCharGo (sep : Char) (acc : List Char) : List Char → List (List Char)
  | [] => [acc.reverse]
  | c :: rest =>
    if c = sep then acc.reverse :: splitCharGo sep [] rest
    else splitCharGo sep (c :: acc) rest

/-- Python `s.split("\n")`. -/
def splitNL (s : String) : List String := (splitCharGo '\n' [] s.data).map String.mk

/-- Split at every non-overlapping occurrence of two consecutive newlines,
like Python `s.split("\n\n")`. -/
def splitTwoNLGo (acc : List Char) : List Char → List (List Char)
  | [] => [acc.reverse]
  | '\n' :: '\n' :: rest => acc.reverse :: splitTwoNLGo [] rest
  | c :: rest => splitTwoNLGo (c :: acc) rest

/-- Python `s.split("\n\n")`. -/
def splitTwoNL (s : String) : List String := (splitTwoNLGo [] s.data).map String.mk

/-- Python `str.split()` with no argument: split on whitespace runs, no empty parts. -/
def pySplitWSGo (acc : List Char) : List Char → List (List Char)
  | [] => if acc.isEmpty then [] else [acc.reverse]
  | c :: rest =>
    if c.isWhitespace then
      if acc.isEmpty then pySplitWSGo [] rest else acc.reverse :: pySplitWSGo [] rest
    else pySplitWSGo (c :: acc) rest

/-- Python `s.split()`. -/
def pySplitWS (s : String) : List String := (pySplitWSGo [] s.data).map String.mk

/-- Python `sep.join(parts)`. -/
def joinSep (sep : String) : List String → String
  | [] => ""
  | [x] => x
  | x :: y :: rest => x ++ sep ++ joinSep sep (y :: rest)

/-- Scan for `pat` as a contiguous sublist of the second argument. -/
def infixOfGo (pat : List Char) : List Char → Bool
  | [] => pat.isEmpty
  | c :: rest => pat.isPrefixOf (c :: rest) || infixOfGo pat rest

/-- Python substring test `pat in hay`. -/
def containsSub (hay pat : String) : Bool := infixOfGo pat.data hay.data

/-- Python truthiness of an optional string: `None` and `""` are falsy. -/
def pyTruthy : Option String → Bool
  | none => false
  | some s => s ≠ ""

/-- Python `str(b)` for a bool. -/
def pyBoolStr (b : Bool) : String := if b then "True" else "False"

/-- Python f-string rendering of an optional integer (`None` prints as `None`). -/
def pyOptNatStr : Option Nat → String
  | none => "None"
  | some n => toString n

/-! ### Word-boundary matching for the follow-up regexes

The follow-up heuristic in `app.py` / `qa_system.py` uses patterns of the
shapes `\bWORD\b` and `^WORDS\b` via `re.search` on the lowercased question.
`matchWordAt w l` checks that `w` occurs at the head of `l` with a word
boundary right after it; `containsWordFrom` scans every position whose
preceding character is not a word character. -/

def matchWordAt (w l : List Char) : Bool :=
  w.isPrefixOf l &&
    (match l.drop w.length with
     | [] => true
     | c :: _ => !isWordChar c)

def containsWordFrom (w : List Char) (prevWord : Bool) : List Char → Bool
  | [] => false
  | c :: rest =>
    if !prevWord && matchWordAt w (c :: rest) then true
    else containsWordFrom w (isWordChar c) rest

/-- `re.search(r"\bWORD\b", s)` for a pattern made of word characters. -/
def containsWord (w s : String) : Bool := containsWordFrom w.data false s.data

/-- `re.search(r"^WORDS\b", s)`: anchored at the start, boundary at the end. -/
def startsWord (w s : String) : Bool := matchWordAt w.data s.data

/-! ### Association lists for the file / cache / session stores -/

/-- First-match lookup in an association list keyed by strings. -/
def alookup {α : Type} (k : String) : List (String × α) → Option α
  | [] => none
  | (k', v) :: rest => if k' = k then some v else alookup k rest

/-- Python dict update `d[k] = v`: the new binding shadows and removes any old one. -/
def aupdate {α : Type} (k : String) (v : α) (l : List (String × α)) : List (String × α) :=
  (k, v) :: l.filter (fun p => p.1 ≠ k)

/-! ### `transcription.py` : merging per-segment transcription results

`transcribe_segments` (lines 91-114) receives the list of per-segment
results positionally (a failed transcription contributes `""`), then joins
them with the lowercase / terminal-punctuation heuristic and collapses
blank lines.  The speech-to-text call itself is external, so the embedding
takes the per-segment result strings as input. -/

/-- First character is a lowercase letter (`segment_text[0].islower()`). -/
def startsLowerStr (s : String) : Bool :=
  match s.data with
  | [] => false
  | c :: _ => c.isLower

/-- Last character of the accumulated transcript is `.`, `!` or `?`
(`transcript[-1] in ".!?"`). -/
def endsTerminal (s : String) : Bool :=
  match s.data.getLast? with
  | none => false
  | some c => c = '.' || c = '!' || c = '?'

/-- One iteration of the joining loop of `transcribe_segments`
(transcription.py lines 98-111); `acc` is the accumulated transcript. -/
def smartJoinStep (acc : String) (i : Nat) (seg : String) : String :=
  if seg = "" then acc
  else if i > 0 then
    if startsLowerStr seg && acc ≠ "" && !endsTerminal acc then
      pyRstrip acc ++ " " ++ seg
    else acc ++ seg ++ "\n"
  else acc ++ seg ++ "\n"

/-- The joining loop over the indexed result list. -/
def smartJoin (results : List String) : String :=
  results.enum.foldl (fun acc p => smartJoinStep acc p.1 p.2) ""

/-- transcription.py line 114: drop lines that are blank after stripping. -/
def collapseBlankLines (t : String) : String :=
  joinSep "\n" ((splitNL t).filter (fun l => pyStrip l ≠ ""))

/-- The merged transcript produced by `transcribe_segments` from the
positional per-segment results, before the RTL-marker step. -/
def mergeTranscript (results : List String) : String :=
  collapseBlankLines (smartJoin results)

/-- `transcribe_segments` including the empty-input early return and the
RTL marker for Arabic; `detected` is the external language detector result
used only when no language was requested. -/
def transcribe_segments (results : List String) (language : Option String)
    (detected : Option String) : String :=
  if results = [] then ""
  else
    let t := mergeTranscript results
    match language with
    | some l => if l = "ar" then "‫" ++ t else t
    | none => if detected = some "ar" then "‫" ++ t else t

/-- The individual lines of a merged transcript. -/
def fragmentsOf (t : String) : List String := splitNL t

/-- The direct (non-chunked) processing path of `app.py` (lines 459-524)
raises only when the merged transcript strips to empty; otherwise the video
record is completed.  The result is the status surfaced for the job. -/
def directProcessStatus (results : List String) : String :=
  if pyStrip (mergeTranscript results) = "" then "error" else "complete"

/-! ### `audio_processing.py` : `split_audio` planning (lines 37-143)

The ffmpeg invocation is external; what the code decides is the effective
segment length, the number of segments and each segment's `(-ss, -t)`
offsets.  `duration` is reported by ffprobe as a float; the repo data uses
whole seconds, modelled as `Nat` (`int(duration / max_seconds)` is then
`Nat` division). -/

/-- Lines 69-74: lengthen segments for long videos before planning. -/
def effectiveMaxSeconds (maxSeconds : Nat) (isLong : Bool) (duration : Nat) : Nat :=
  if isLong then
    if duration > 7200 then max maxSeconds 180
    else if duration > 3600 then max maxSeconds 120
    else maxSeconds
  else maxSeconds

/-- Line 77: `segments_count = max(1, int(duration / max_seconds))`. -/
def segmentsCount (duration maxSeconds : Nat) : Nat := max 1 (duration / maxSeconds)

/-- The planned segments as `(start_offset, length)` pairs: segment `i`
is extracted with `-ss i*max_seconds -t max_seconds` (lines 91-109). -/
def plannedSegments (duration maxSeconds : Nat) : List (Nat × Nat) :=
  (List.range (segmentsCount duration maxSeconds)).map (fun i => (i * maxSeconds, maxSeconds))

/-! ### `app.py` : long-video chunked processing (lines 349-437, 857-1083) -/

/-- Line 395: `is_long_video = video_duration > 1800 or force_chunked`. -/
def isLongVideo (duration : Nat) (forceChunked : Bool) : Bool :=
  duration > 1800 || forceChunked

/-- Lines 865-867: super-chunk length, 1200s, or 1800s beyond two hours. -/
def chunkDuration (duration : Nat) : Nat := if duration > 7200 then 1800 else 1200

/-- Line 870 / 906:
`total_chunks = max(1, int(duration / chunk_duration) + (1 if duration % chunk_duration > 0 else 0))`. -/
def totalChunks (duration : Nat) : Nat :=
  max 1 (duration / chunkDuration duration +
    (if duration % chunkDuration duration > 0 then 1 else 0))

/-- The persisted job record of a video (`videos/{id}.json`), restricted to
the counter and status fields the claims are about. -/
structure JobRecord where
  chunksTotal : Nat
  chunksCompleted : Nat
  processingStatus : String
  deriving DecidableEq, Repr

/-- The per-chunk loop of `process_long_video` (lines 930-1003) on the
persisted record: each successfully processed super-chunk advances
`chunks_completed` to `chunk_idx + 1`. -/
def runChunksRecord (d : Nat) : JobRecord :=
  (List.range (totalChunks d)).foldl
    (fun r i => { r with chunksCompleted := i + 1 })
    { chunksTotal := totalChunks d, chunksCompleted := 0, processingStatus := "transcribing" }

/-- The record written by a successful `process_long_video` run whose
recalibrated duration is `d` (final write, lines 1038-1055). -/
def processLongVideoFinal (d : Nat) : JobRecord :=
  { runChunksRecord d with
      chunksTotal := totalChunks d
      chunksCompleted := totalChunks d
      processingStatus := "complete" }

/-- The status derived for a listed video (`/videos`, lines 326-332):
`complete` unless a long video still has `chunks_completed < chunks_total`. -/
def listingStatus (isLong : Bool) (r : JobRecord) : String :=
  if isLong && decide (r.chunksCompleted < r.chunksTotal) then "in_progress" else "complete"

/-! ### `app.py` : the progress tracker (lines 74-123)

`update_progress` mutates the global `progress_status` dict; the embedding
passes the record explicitly.  `started_at` and the ETA string are measured
in wall-clock float time and are not modelled (no claim depends on them);
everything else follows the source line by line. -/

structure Progress where
  message : String
  percentage : Nat
  videoId : Option String
  processingType : String
  chunksTotal : Nat
  chunksCompleted : Nat
  deriving DecidableEq, Repr

/-- `update_progress` (lines 86-111).  Each `Option` argument is a Python
keyword argument defaulting to `None`.  Note that the derived-percentage
branch (lines 106-108) tests the `chunks_total` argument of the current
call, not the stored `progress_status["chunks_total"]`. -/
def update_progress (s : Progress) (message : String) (percentage : Option Nat)
    (video_id : Option String) (processing_type : Option String)
    (chunks_total : Option Nat) (chunks_completed : Option Nat) : Progress :=
  let s1 := { s with message := message }
  let s2 := match percentage with
            | some p => { s1 with percentage := p }
            | none => s1
  let s3 := match video_id with
            | some v => { s2 with videoId := some v }
            | none => s2
  let s4 := match processing_type with
            | some t => { s3 with processingType := t }
            | none => s3
  let s5 := match chunks_total with
            | some t => { s4 with chunksTotal := t }
            | none => s4
  match chunks_completed with
  | some c =>
    let s6 := { s5 with chunksCompleted := c }
    match chunks_total with
    | some t =>
      if t ≠ 0 && decide (c ≤ t) then { s6 with percentage := c * 100 / t } else s6
    | none => s6
  | none => s5

/-! ### `app.py` : answer-cache fingerprints (lines 610-613, 684-687)

`md5(x).hexdigest()` is modelled by the hashed string `x` itself (md5 is
treated as injective on the repo data), so fingerprint equality is equality
of the formatted key strings. -/

/-- Line 685: `clean_q = re.sub(r"[^\w\s]", "", question.lower())`. -/
def cleanQ (q : String) : String :=
  ⟨(pyLower q).data.filter (fun c => isWordChar c || c.isWhitespace)⟩

/-- Line 686: the main answer-cache key `f"{clean_q}_{language}_{is_followup}"`. -/
def appFingerprint (question language : String) (isFollowup : Bool) : String :=
  cleanQ question ++ "_" ++ language ++ "_" ++ pyBoolStr isFollowup

/-- Lines 611-613: the time-window cache key
`f"{question}_{language}_{start_time_sec}_{end_time_sec}"` (raw question). -/
def windowFingerprint (question language : String)
    (startSec endSec : Option Nat) : String :=
  question ++ "_" ++ language ++ "_" ++ pyOptNatStr startSec ++ "_" ++ pyOptNatStr endSec

/-! ### The per-source persisted and in-process state

`Sys` collects the stores the claims are about: the transcript / audio /
temp file names, the parsed contents of the JSON cache files under
`data/cache`, the Chroma collections, the conversation histories keyed by
session id, and the module-level `_memory_cache` of `qa_system.py`.
File contents other than the caches are not needed by any claim, so file
stores other than `cacheFiles` and `collections` record names only. -/

abbrev CacheMap := List (String × String)

structure Sys where
  transcripts : List String
  audioFiles : List String
  tempFiles : List String
  cacheFiles : List (String × CacheMap)
  collections : List (String × List String)
  convSessions : List (String × List (String × String))
  memCache : List (String × CacheMap)
  deriving DecidableEq, Repr

/-- `clean_video_data` (app.py lines 125-184): removes the transcript file
`{id}.txt`, the cache file `{id}.json`, the audio file `{id}.mp3`, the
temp files prefixed `{id}_` under `data/temp`, the Chroma collection
`youtube_transcript_{id}` and the conversation sessions prefixed `{id}_`.
It does not touch the module-level `_memory_cache` of `qa_system.py`. -/
def cleanVideoData (videoId : String) (s : Sys) : Sys :=
  { transcripts := s.transcripts.filter (fun n => n ≠ videoId ++ ".txt")
    audioFiles := s.audioFiles.filter (fun n => n ≠ videoId ++ ".mp3")
    tempFiles := s.tempFiles.filter (fun n => !(videoId ++ "_").isPrefixOf n)
    cacheFiles := s.cacheFiles.filter (fun p => p.1 ≠ videoId ++ ".json")
    collections := s.collections.filter (fun p => p.1 ≠ "youtube_transcript_" ++ videoId)
    convSessions := s.convSessions.filter (fun p => !(videoId ++ "_").isPrefixOf p.1)
    memCache := s.memCache }

/-- `get_cached_answer` disk part (qa_system.py lines 184-202): read the
cache file `{id}.json`, and promote a truthy hit into the memory cache. -/
def getCachedAnswerDisk (hashKey videoId : String) (s : Sys) : Option String × Sys :=
  match alookup (videoId ++ ".json") s.cacheFiles with
  | none => (none, s)
  | some cache =>
    match alookup hashKey cache with
    | none => (none, s)
    | some a =>
      if a ≠ "" then
        let m := (alookup videoId s.memCache).getD []
        (some a, { s with memCache := aupdate videoId (aupdate hashKey a m) s.memCache })
      else (some a, s)

/-- `get_cached_answer` (qa_system.py lines 177-202): memory cache first,
then the disk cache file. -/
def get_cached_answer (hashKey videoId : String) (s : Sys) : Option String × Sys :=
  match alookup videoId s.memCache with
  | some m =>
    match alookup hashKey m with
    | some a => (some a, s)
    | none => getCachedAnswerDisk hashKey videoId s
  | none => getCachedAnswerDisk hashKey videoId s

/-- `save_to_cache` (qa_system.py lines 204-228): write through to both the
memory cache and the disk cache file `{id}.json`. -/
def save_to_cache (hashKey answer videoId : String) (s : Sys) : Sys :=
  let m := (alookup videoId s.memCache).getD []
  let s1 := { s with memCache := aupdate videoId (aupdate hashKey answer m) s.memCache }
  let fm := (alookup (videoId ++ ".json") s1.cacheFiles).getD []
  { s1 with cacheFiles := aupdate (videoId ++ ".json") (aupdate hashKey answer fm) s1.cacheFiles }

/-- The time-window cache write of the timestamp-scoped question path
(app.py lines 660-671): the file is `{id}_segments.json`. -/
def saveSegmentCacheEntry (videoId hashKey answer : String) (s : Sys) : Sys :=
  let fm := (alookup (videoId ++ "_segments.json") s.cacheFiles).getD []
  { s with cacheFiles := aupdate (videoId ++ "_segments.json") (aupdate hashKey answer fm) s.cacheFiles }

/-! ### Question classification (`app.py` lines 187-202, `qa_system.py` lines 44-127, 454-467) -/

/-- `is_followup_question`, identical in app.py and qa_system.py: any of
the five regex patterns matches the lowercased question. -/
def is_followup_question (question : String) : Bool :=
  let ql := pyLower question
  containsWord "it" ql || containsWord "this" ql || containsWord "that" ql ||
  containsWord "these" ql || containsWord "those" ql ||
  containsWord "he" ql || containsWord "she" ql || containsWord "they" ql ||
  startsWord "and" ql || startsWord "but" ql || startsWord "so" ql || startsWord "because" ql ||
  startsWord "what about" ql || startsWord "how about" ql ||
  startsWord "why" ql || startsWord "when" ql || startsWord "where" ql || startsWord "how" ql

def videoIndicators : List String :=
  ["in the video", "the video", "this video",
   "transcript", "in it", "they say", "mention",
   "talk about", "discuss", "explain", "show",
   "demonstrate", "what does", "where is", "when does",
   "how many", "why did", "who is",
   "summary", "summarize", "summarized", "summry", "summrized",
   "recap", "overview", "sum up", "synopsis",
   "main points", "key points", "highlights",
   "long summary", "short summary", "brief summary",
   "detailed summary", "full summary", "quick summary"]

def casualIndicators : List String :=
  ["hello", "hi there", "thank you", "thanks",
   "how are you", "good morning", "good afternoon",
   "i want", "please get me", "give me", "i need",
   "can i have", "bring me", "i would like"]

def relatedExceptions : List String :=
  ["i need summary", "i need a summary", "i need the summary",
   "i need long", "i need a long", "i need the long",
   "i need short", "i need a short", "i need the short",
   "give me summary", "give me a summary", "give me the summary",
   "i want summary", "i want a summary", "i want the summary"]

/-- `is_video_related_question` (qa_system.py lines 44-110).  The trailing
title-word loop and the default both return `True`, which the embedding
keeps verbatim. -/
def is_video_related_question (question videoTitle : String) : Bool :=
  let ql := pyLower question
  if relatedExceptions.any (fun e => containsSub ql e) then true
  else if videoIndicators.any (fun e => containsSub ql e) then true
  else if casualIndicators.any (fun e => containsSub ql e) then
    containsSub ql "summary" || containsSub ql "summarize" || containsSub ql "recap"
  else if videoTitle ≠ "" &&
      (pySplitWS videoTitle).any (fun w => decide (w.length > 3) && containsSub ql (pyLower w)) then
    true
  else true

def summaryTerms : List String :=
  ["summary", "summarize", "summarized", "summarization", "sum up",
   "brief", "overview", "recap", "synopsis", "tldr", "main points", "key points",
   "ملخص", "لخص", "تلخيص", "موجز", "نبذة", "أهم النقاط"]

/-- `is_summary_request` (qa_system.py lines 454-467). -/
def is_summary_request (query : String) : Bool :=
  summaryTerms.any (fun t => containsSub (pyLower query) t)

/-- The qa_system cache key (lines 511-514):
`f"{clean_q}_{language}_{is_followup_str}_{use_agent}"`. -/
def qaFingerprint (question language : String) (useAgent : Bool) : String :=
  cleanQ question ++ "_" ++ language ++ "_" ++
    (if is_followup_question question then "followup" else "direct") ++ "_" ++
    pyBoolStr useAgent

/-! ### Prompt construction (`qa_system.py` lines 230-452) -/

structure PromptPair where
  system : String
  user : String
  deriving DecidableEq, Repr

def qaSystemPromptAr : String :=
  "أنت مساعد ذكي، ومهمتك هي الإجابة على الأسئلة حول نص مقطع من فيديو بناءً على المقتطفات المقدمة من النص.\n        \nقواعد هامة:\n1. إذا كانت المقتطفات النصية لا تحتوي على معلومات كافية للإجابة على السؤال، قل \"لا أستطيع الإجابة على هذا السؤال بناءً على نص الفيديو.\"\n2. لا تختلق إجابات أو تفترض معلومات غير موجودة في المقتطفات.\n3. استند في إجاباتك فقط على محتوى المقتطفات، وليس على معرفتك الخاصة.\n4. كن دقيقًا ومباشرًا في إجاباتك.\n5. إذا كان السؤال خارج سياق الفيديو أو غير ذي صلة، فوضح ذلك للمستخدم بطريقة مهذبة.\n\nسيتم تقديم مقتطفات من نص الفيديو، والمطلوب منك الإجابة عن أسئلة المستخدم اعتمادًا على هذه المقتطفات فقط."

def qaSystemPromptEn : String :=
  "You are an intelligent assistant. Your task is to answer questions about a video transcript based on the provided transcript excerpts.\n\nImportant rules:\n1. If the transcript excerpts don\x27t contain enough information to answer the question, say \"I cannot answer this question based on the video transcript.\"\n2. Don\x27t make up answers or assume information not present in the excerpts.\n3. Base your answers only on the content of the excerpts, not on your own knowledge.\n4. Be concise and direct in your answers.\n5. If the question is outside the context of the video or irrelevant, politely clarify this to the user.\n\nYou will be given excerpts from the video transcript, and you need to answer the user\x27s questions based solely on these excerpts."

def agentSystemPromptAr : String :=
  "أنت مساعد ذكي يستخدم نهج التفكير خطوة بخطوة. مهمتك هي الإجابة على الأسئلة حول نص مقطع فيديو.\n\nعند تحليل السؤال، فكر أولاً في:\n1. ما هي المعلومات الرئيسية المطلوبة؟\n2. هل توجد هذه المعلومات في مقتطفات النص المقدمة؟\n3. ما هي الأجزاء الأكثر صلة من النص للإجابة على هذا السؤال؟\n\nمن ثم قم بإنشاء إجابة:\n1. استند فقط على المعلومات الموجودة في مقتطفات النص.\n2. تجنب اختلاق معلومات أو افتراضات خارج النص.\n3. إذا كانت المعلومات غير متوفرة، اعترف بذلك بوضوح.\n\nاستخدم هذا التنسيق:\nالفكر: [تحليلك للسؤال وكيفية الإجابة عليه، وذكر الأدلة من النص]\nالإجابة النهائية: [إجابتك المباشرة على السؤال]"

def agentSystemPromptEn : String :=
  "You are an intelligent assistant using a step-by-step reasoning approach. Your task is to answer questions about a video transcript.\n\nWhen analyzing the question, first think about:\n1. What key information is being asked for?\n2. Is this information present in the provided transcript excerpts?\n3. Which parts of the transcript are most relevant to answering this question?\n\nThen formulate an answer:\n1. Base your answer solely on information in the transcript excerpts.\n2. Avoid making up information or assumptions beyond the transcript.\n3. If information is not available, clearly acknowledge this.\n\nUse this format:\nThought: [your analysis of the question and how to answer it, citing evidence from the transcript]\nFinal Answer: [your direct answer to the question]"

/-- One history entry of the conversation context block. -/
def convEntry (language : String) (i : Nat) (qa : String × String) : String :=
  if language = "ar" then
    "سؤال " ++ toString (i + 1) ++ ": " ++ qa.1 ++ "\n" ++
    "إجابة " ++ toString (i + 1) ++ ": " ++ qa.2 ++ "\n\n"
  else
    "Question " ++ toString (i + 1) ++ ": " ++ qa.1 ++ "\n" ++
    "Answer " ++ toString (i + 1) ++ ": " ++ qa.2 ++ "\n\n"

/-- The `conversation_context` block (qa_system.py lines 260-274): empty
when no history is supplied. -/
def convContext (language : String) (hist : List (String × String)) : String :=
  if hist.isEmpty then ""
  else
    (if language = "ar" then "\n\nسياق المحادثة السابقة:\n"
     else "\n\nPrevious conversation context:\n") ++
    String.join (hist.enum.map (fun p => convEntry language p.1 p.2))

/-- `generate_prompt` (qa_system.py lines 230-296); `hist` is the Python
`conversation_history` argument with `None` already defaulted to `[]`. -/
def generate_prompt (question : String) (context : List String) (language : String)
    (hist : List (String × String)) : PromptPair :=
  let contextText := joinSep "\n\n---\n\n" context
  let conv := convContext language hist
  if language = "ar" then
    { system := qaSystemPromptAr
      user := "سؤال: " ++ question ++ "\n\nمقتطفات من نص الفيديو:\n" ++ contextText ++
        "\n\n" ++ conv ++ "\n\nالرجاء الإجابة على السؤال بدقة استنادًا فقط إلى مقتطفات النص المقدمة." }
  else
    { system := qaSystemPromptEn
      user := "Question: " ++ question ++ "\n\nTranscript excerpts:\n" ++ contextText ++
        "\n\n" ++ conv ++ "\n\nPlease answer the question accurately based only on the provided transcript excerpts." }

/-- `generate_agent_prompt` (qa_system.py lines 376-452; the later of the
two identical definitions is the live one). -/
def generate_agent_prompt (question : String) (context : List String) (language : String)
    (hist : List (String × String)) : PromptPair :=
  let contextText := joinSep "\n\n---\n\n" context
  let conv := convContext language hist
  if language = "ar" then
    { system := agentSystemPromptAr
      user := "سؤال: " ++ question ++ "\n\nمقتطفات من نص الفيديو:\n" ++ contextText ++
        "\n\n" ++ conv ++ "\n\nالرجاء التفكير خطوة بخطوة ثم تقديم إجابتك النهائية." }
  else
    { system := agentSystemPromptEn
      user := "Question: " ++ question ++ "\n\nTranscript excerpts:\n" ++ contextText ++
        "\n\n" ++ conv ++ "\n\nPlease think step-by-step and then provide your final answer." }

/-! ### `summarize_transcript` (qa_system.py lines 784-942)

The chat-completion capability is a parameter of type `ChatOracle`,
applied to the system and user prompts; the embedding returns the answer
together with the number of chat-completion calls made.  The per-chunk
exception fallback (lines 868-873) is unreachable for a total oracle. -/

abbrev ChatOracle := String → String → String

def summarySystemAr (summaryType : String) : String :=
  "أنت مساعد ذكي متخصص في تلخيص محتوى الفيديو. قم بإنشاء ملخص " ++ summaryType ++
  " لنص الفيديو المقدم.\n        \nقواعد التلخيص:\n1. ركز على النقاط والمعلومات الرئيسية.\n2. تضمين العناوين الفرعية إذا كان ذلك مناسبًا.\n3. الحفاظ على تسلسل منطقي للأفكار.\n4. تجنب التفاصيل غير الضرورية.\n5. الاختصار مع الحفاظ على المعنى الكامل."

def summarySystemEn (summaryType : String) : String :=
  "You are an intelligent assistant specialized in summarizing video content. Create a " ++
  summaryType ++ " summary of the provided video transcript.\n        \nSummarization rules:\n1. Focus on key points and information.\n2. Include subheadings if appropriate.\n3. Maintain a logical flow of ideas.\n4. Omit unnecessary details.\n5. Be concise while preserving full meaning."

def summaryChunkMsg (language : String) (idx total : Nat) (chunk : String) : String :=
  if language = "ar" then
    "جزء " ++ toString (idx + 1) ++ "/" ++ toString total ++
    " من نص الفيديو:\n\n" ++ chunk ++
    "\n\nقم بتلخيص هذا الجزء من النص، مع التركيز على النقاط الرئيسية والمعلومات المهمة."
  else
    "Part " ++ toString (idx + 1) ++ "/" ++ toString total ++
    " of the video transcript:\n\n" ++ chunk ++
    "\n\nSummarize this portion of the transcript, focusing on the main points and important information."

def summaryCombineMsg (language summaryType combined : String) : String :=
  if language = "ar" then
    "فيما يلي ملخصات لأجزاء مختلفة من نص الفيديو:\n\n" ++ combined ++
    "\n\nقم بدمج هذه الملخصات في ملخص " ++ summaryType ++
    " واحد متماسك للفيديو بأكمله، مع إزالة أي تكرار وضمان تدفق المعلومات بشكل منطقي."
  else
    "Below are summaries of different parts of the video transcript:\n\n" ++ combined ++
    "\n\nCombine these summaries into one coherent " ++ summaryType ++
    " summary of the entire video, removing any repetition and ensuring a logical flow of information."

def summaryShortMsg (language summaryType transcript : String) : String :=
  if language = "ar" then
    "نص الفيديو:\n\n" ++ transcript ++
    "\n\nقم بإنشاء ملخص " ++ summaryType ++
    " لهذا الفيديو، مع التركيز على النقاط الرئيسية والمعلومات المهمة."
  else
    "Video transcript:\n\n" ++ transcript ++
    "\n\nCreate a " ++ summaryType ++
    " summary of this video, focusing on the main points and important information."

/-- The overlapping 4000-character chunks stepped by 3500 characters
(qa_system.py lines 826-837), with the early break at the final chunk.
The fuel is one step per 3500-character stride, which is always enough. -/
def summaryChunksGo (data : List Char) : Nat → Nat → List (List Char)
  | 0, _ => []
  | fuel + 1, i =>
    if i < data.length then
      let endIdx := min (i + 4000) data.length
      let chunk := (data.drop i).take (endIdx - i)
      if endIdx = data.length then [chunk]
      else chunk :: summaryChunksGo data fuel (i + 3500)
    else []

def summaryChunks (data : List Char) : List (List Char) :=
  summaryChunksGo data (data.length / 3500 + 1) 0

/-- `summarize_transcript`, returning the answer and the number of
chat-completion calls. -/
def summarize_transcript (transcript lengthArg language : String)
    (oracle : ChatOracle) : String × Nat :=
  if (pyStrip transcript).length < 50 then
    ((if language = "ar" then "النص قصير جدًا للتلخيص."
      else "The transcript is too short to summarize."), 0)
  else
    let summaryType :=
      if lengthArg = "short" then "concise"
      else if lengthArg = "long" then "comprehensive"
      else "balanced"
    let sysPrompt := if language = "ar" then summarySystemAr summaryType
                     else summarySystemEn summaryType
    if transcript.length > 10000 then
      let chunks := (summaryChunks transcript.data).map String.mk
      let summaries := chunks.enum.map (fun p =>
        pyStrip (oracle sysPrompt (summaryChunkMsg language p.1 chunks.length p.2)))
      let combined := joinSep "\n\n" summaries
      (pyStrip (oracle sysPrompt (summaryCombineMsg language summaryType combined)),
        chunks.length + 1)
    else
      (pyStrip (oracle sysPrompt (summaryShortMsg language summaryType transcript)), 1)

/-! ### `ask_question` (qa_system.py lines 469-624) -/

/-- The windowed full-text fallback for transcripts over 10000 characters
(qa_system.py lines 536-553): line-based sliding chunks of at most about
1000 characters with a three-line overlap. -/
def slidingChunksGo (cur : List String) (size : Nat) : List String → List String
  | [] => if cur.isEmpty then [] else [joinSep "\n" cur]
  | line :: rest =>
    if size + line.length > 1000 && !cur.isEmpty then
      let flushed := joinSep "\n" cur
      let keep := cur.drop (cur.length - min 3 cur.length)
      let keepSize := (keep.map String.length).sum
      flushed :: slidingChunksGo (keep ++ [line]) (keepSize + line.length) rest
    else slidingChunksGo (cur ++ [line]) (size + line.length) rest

/-- The paragraph-based fallback for shorter transcripts
(qa_system.py lines 554-570). -/
def paraChunksGo (cur : List String) (size : Nat) : List String → List String
  | [] => if cur.isEmpty then [] else [joinSep "\n\n" cur]
  | para :: rest =>
    if size + para.length > 1000 && !cur.isEmpty then
      joinSep "\n\n" cur :: paraChunksGo [para] (para.length + 2) rest
    else paraChunksGo (cur ++ [para]) (size + para.length + 2) rest

/-- Lines 529-579: the context used when vector retrieval yields nothing.
When more than five chunks exist the code keeps
`chunks[:max_chunks//2] + chunks[-max_chunks//2:]`; since unary minus
binds tighter than floor division, `-5//2` is `-3`, so this is the first
two and the last three chunks. -/
def fallbackContext (transcript : String) : List String :=
  let chunks :=
    if transcript.length > 10000 then slidingChunksGo [] 0 (splitNL transcript)
    else paraChunksGo [] 0 (splitTwoNL transcript)
  if chunks.length > 5 then chunks.take 2 ++ chunks.drop (chunks.length - 3)
  else chunks

/-- Tail after the first occurrence of `pat`, scanning left to right. -/
def afterSub (pat : List Char) : List Char → Option (List Char)
  | [] => if pat.isEmpty then some [] else none
  | c :: rest =>
    if pat.isPrefixOf (c :: rest) then some ((c :: rest).drop pat.length)
    else afterSub pat rest

/-- Characters up to the first occurrence of two consecutive newlines. -/
def takeUntilTwoNL (acc : List Char) : List Char → List Char
  | [] => acc.reverse
  | '\n' :: '\n' :: _ => acc.reverse
  | c :: rest => takeUntilTwoNL (c :: acc) rest

/-- The agent-mode extraction `re.search(r"Final Answer:(.*?)(?:$|\n\n)", answer, re.DOTALL)`
followed by `.strip()` (qa_system.py lines 606-612): the lazy group takes the
text after the first `Final Answer:` up to the first blank-line separator or
the end; the end-of-string newline nuance of `$` is absorbed by the strip. -/
def extractFinalAnswer (answer : String) : String :=
  match afterSub "Final Answer:".data answer.data with
  | some rest => pyStrip ⟨takeUntilTwoNL [] rest⟩
  | none => answer

/-- The result of one embedded `ask_question` call: the answer, the number
of chat-completion calls it made, whether it consulted / wrote the
qa_system answer cache, the conversation turns handed to prompt
construction (`none` when no prompt was built), and the updated state. -/
structure QAResult where
  answer : String
  llmCalls : Nat
  cacheRead : Bool
  cacheWrote : Bool
  promptHistory : Option (List (String × String))
  sys : Sys
  deriving DecidableEq, Repr

/-- `ask_question` (qa_system.py lines 469-624).  `videoTitle` is the title
after the `get_video_title` defaulting step (the title file read is
external to this state); `retrieved` is what the vector store returned for
the question (empty meaning no usable index / no results); `oracle` is the
chat-completion capability. -/
def ask_question (question transcript videoId language : String) (useAgent : Bool)
    (conversationHistory : Option (List (String × String))) (videoTitle : String)
    (retrieved : List String) (oracle : ChatOracle) (s : Sys) : QAResult :=
  let histFalsy := match conversationHistory with
                   | none => true
                   | some l => l.isEmpty
  let followupQ := is_followup_question question
  if (histFalsy || !followupQ) && !is_video_related_question question videoTitle then
    { answer := if language = "ar" then "الرجاء طرح سؤال متعلق بالفيديو."
                else "Please ask a question related to the video transcript."
      llmCalls := 0, cacheRead := false, cacheWrote := false
      promptHistory := none, sys := s }
  else if (pyStrip transcript).length < 10 then
    { answer := if language = "ar" then "عذراً، لا يوجد نص متاح لهذا الفيديو."
                else "Sorry, there is no transcript available for this video."
      llmCalls := 0, cacheRead := false, cacheWrote := false
      promptHistory := none, sys := s }
  else if is_summary_request question then
    let r := summarize_transcript transcript "medium" language oracle
    { answer := r.1, llmCalls := r.2, cacheRead := false, cacheWrote := false
      promptHistory := none, sys := s }
  else
    let qHash := qaFingerprint question language useAgent
    let tryCache := !followupQ || histFalsy
    let cacheRes := if tryCache then get_cached_answer qHash videoId s else (none, s)
    if pyTruthy cacheRes.1 then
      { answer := cacheRes.1.getD "", llmCalls := 0, cacheRead := true
        cacheWrote := false, promptHistory := none, sys := cacheRes.2 }
    else
      let context := if retrieved.isEmpty then fallbackContext transcript else retrieved
      let hist := conversationHistory.getD []
      let prompt := if useAgent then generate_agent_prompt question context language hist
                    else generate_prompt question context language hist
      let raw := pyStrip (oracle prompt.system prompt.user)
      let answer := if useAgent && containsSub raw "Final Answer:" then
                      extractFinalAnswer raw
                    else raw
      if tryCache then
        { answer := answer, llmCalls := 1, cacheRead := true, cacheWrote := true
          promptHistory := some hist, sys := save_to_cache qHash answer videoId cacheRes.2 }
      else
        { answer := answer, llmCalls := 1, cacheRead := false, cacheWrote := false
          promptHistory := some hist, sys := cacheRes.2 }

/-- Case-insensitive match of `pat` at the head of `l`, returning the rest. -/
def dropCI (pat l : List Char) : Option (List Char) :=
  match pat, l with
  | [], rest => some rest
  | _ :: _, [] => none
  | p :: ps, c :: cs => if c.toLower = p.toLower then dropCI ps cs else none

/-- app.py line 718, for Arabic agent answers:
`re.sub(r"(?i)^final\s+answer\s*:\s*", "", answer).strip()`. -/
def stripFinalAnswerMarker (answer : String) : String :=
  let unchanged := pyStrip answer
  match dropCI "final".data answer.data with
  | none => unchanged
  | some r1 =>
    match r1 with
    | [] => unchanged
    | c :: rest =>
      if c.isWhitespace then
        match dropCI "answer".data (dropWS rest) with
        | none => unchanged
        | some r2 =>
          match dropWS r2 with
          | ':' :: r3 => pyStrip ⟨dropWS r3⟩
          | _ => unchanged
      else unchanged

/-! ### The `/videos/{id}/question` endpoint, regular (non-windowed) path
(app.py lines 582-736) -/

/-- Appending a turn to the session history with the length-10 trim
(app.py lines 674-676, 698-701, 731-734). -/
def appendTurn (sessionId question answer : String) (s : Sys) : Sys :=
  let hist := (alookup sessionId s.convSessions).getD []
  let h1 := hist ++ [(question, answer)]
  let h2 := if h1.length > 10 then h1.drop 1 else h1
  { s with convSessions := aupdate sessionId h2 s.convSessions }

/-- Lines 592-593: the explicit `is_followup` request field wins; otherwise
the heuristic conjoined with a nonempty session history. -/
def classifyFollowup (flag : Option Bool) (question : String)
    (hist : List (String × String)) : Bool :=
  match flag with
  | some b => b
  | none => is_followup_question question && !hist.isEmpty

/-- The observable outcome of the endpoint: the answer, the `cached`
response flag, the chat-completion call count, which caches were read or
written at the app layer and inside `ask_question`, the turns handed to
prompt construction, and the updated state. -/
structure AskResult where
  answer : String
  cachedFlag : Bool
  llmCalls : Nat
  appCacheRead : Bool
  appCacheWrote : Bool
  qaCacheRead : Bool
  qaCacheWrote : Bool
  promptHistory : Option (List (String × String))
  sys : Sys
  deriving DecidableEq, Repr

/-- The regular-question flow of `ask` (app.py lines 582-736), after the
existence / still-processing gates: classify the follow-up status, consult
the app-level cache file `{id}.json` for non-follow-ups, otherwise run
`ask_question`, apply the Arabic agent-prefix strip, write the cache for
non-follow-ups, and append the conversation turn. -/
def askRegular (question language : String) (useAgent : Bool) (followupFlag : Option Bool)
    (videoId sessionId videoTitle transcript : String)
    (retrieved : List String) (oracle : ChatOracle) (s : Sys) : AskResult :=
  let hist := (alookup sessionId s.convSessions).getD []
  let isFollowup := classifyFollowup followupFlag question hist
  let qHash := appFingerprint question language isFollowup
  let fileContent := alookup (videoId ++ ".json") s.cacheFiles
  let didRead := fileContent.isSome && !isFollowup
  let cached : Option String :=
    if !isFollowup then fileContent.bind (alookup qHash) else none
  if pyTruthy cached then
    let a := cached.getD ""
    { answer := a, cachedFlag := true, llmCalls := 0
      appCacheRead := didRead, appCacheWrote := false
      qaCacheRead := false, qaCacheWrote := false, promptHistory := none
      sys := appendTurn sessionId question a s }
  else
    let qr := ask_question question transcript videoId language useAgent
      (if isFollowup then some hist else none) videoTitle retrieved oracle s
    let answer := if language = "ar" && useAgent then stripFinalAnswerMarker qr.answer
                  else qr.answer
    let s2 :=
      if !isFollowup then
        let fm := (alookup (videoId ++ ".json") qr.sys.cacheFiles).getD []
        { qr.sys with
            cacheFiles := aupdate (videoId ++ ".json") (aupdate qHash answer fm) qr.sys.cacheFiles }
      else qr.sys
    { answer := answer, cachedFlag := false, llmCalls := qr.llmCalls
      appCacheRead := didRead, appCacheWrote := !isFollowup
      qaCacheRead := qr.cacheRead, qaCacheWrote := qr.cacheWrote
      promptHistory := qr.promptHistory
      sys := appendTurn sessionId question answer s2 }

/-! ### `extract_transcript_segment` (app.py lines 205-288)

The `[MM:SS]` / `[~MM:SS]` marker scanning embeds the regex
`\[(?:~)?(\d+):(\d+)\]`: a search for the first match per line and a
removal of all matches from a matched line. -/

/-- Leading digit run of a character list, with the rest. -/
def takeDigits : List Char → List Char × List Char
  | [] => ([], [])
  | c :: cs =>
    if c.isDigit then
      let p := takeDigits cs
      (c :: p.1, p.2)
    else ([], c :: cs)

def natOfDigits (ds : List Char) : Nat :=
  ds.foldl (fun n c => n * 10 + (c.toNat - 48)) 0

/-- Try to match `(?:~)?(\d+):(\d+)\]` right after an opening bracket,
returning minutes, seconds and the rest of the line. -/
def matchTsAfterBracket (l : List Char) : Option (Nat × Nat × List Char) :=
  let l1 := match l with
            | '~' :: r => r
            | _ => l
  let p1 := takeDigits l1
  if p1.1.isEmpty then none
  else
    match p1.2 with
    | ':' :: r2 =>
      let p2 := takeDigits r2
      if p2.1.isEmpty then none
      else
        match p2.2 with
        | ']' :: r4 => some (natOfDigits p1.1, natOfDigits p2.1, r4)
        | _ => none
    | _ => none

/-- `re.search` for the timestamp pattern: first match in the line. -/
def searchTs : List Char → Option (Nat × Nat)
  | [] => none
  | c :: rest =>
    if c = '[' then
      match matchTsAfterBracket rest with
      | some (m, sec, _) => some (m, sec)
      | none => searchTs rest
    else searchTs rest

/-- `re.sub` of all timestamp matches, scanning left to right.  Each step
consumes at least one character, so fuel equal to the length is enough. -/
def removeTsFuel : Nat → List Char → List Char
  | 0, l => l
  | _ + 1, [] => []
  | fuel + 1, c :: rest =>
    if c = '[' then
      match matchTsAfterBracket rest with
      | some (_, _, r) => removeTsFuel fuel r
      | none => c :: removeTsFuel fuel rest
    else c :: removeTsFuel fuel rest

def removeTs (l : List Char) : List Char := removeTsFuel l.length l

/-- One line of the marker-parsing loop (app.py lines 222-244).  The state
is `(current_time, current_text, segments)`. -/
def parseStep (st : Nat × List Char × List (Nat × String)) (line : String) :
    Nat × List Char × List (Nat × String) :=
  match searchTs line.data with
  | some (m, sec) =>
    let ts := m * 60 + sec
    let acc2 := if !st.2.1.isEmpty && decide (st.1 > 0)
                then st.2.2 ++ [(st.1, pyStrip ⟨st.2.1⟩)] else st.2.2
    (ts, removeTs line.data, acc2)
  | none =>
    if !st.2.1.isEmpty then (st.1, st.2.1 ++ (' ' :: line.data), st.2.2)
    else (st.1, line.data, st.2.2)

/-- The timestamped segments parsed from a transcript (lines 215-248),
including the final-segment flush. -/
def parseSegments (transcript : String) : List (Nat × String) :=
  let st := (splitNL transcript).foldl parseStep (0, [], [])
  if !st.2.1.isEmpty && decide (st.1 > 0) then st.2.2 ++ [(st.1, pyStrip ⟨st.2.1⟩)]
  else st.2.2

/-- Python `f"[{t//60}:{t%60:02d}] {text}"` (lines 263, 282). -/
def pad2 (n : Nat) : String := if n < 10 then "0" ++ toString n else toString n

def fmtSeg (seg : Nat × String) : String :=
  "[" ++ toString (seg.1 / 60) ++ ":" ++ pad2 (seg.1 % 60) ++ "] " ++ seg.2

/-- Absolute distance of two timestamps. -/
def natDist (a b : Nat) : Nat := if a ≤ b then b - a else a - b

/-- Python `min(xs, key=f)` over a nonempty list `x :: xs`: the first
element attaining the minimum key. -/
def pyMinBy (f : Nat × String → Nat) (x : Nat × String) (xs : List (Nat × String)) :
    Nat × String :=
  xs.foldl (fun best y => if f y < f best then y else best) x

/-- Python `list.index`: position of the first occurrence. -/
def pyIndexOf (x : Nat × String) : List (Nat × String) → Nat
  | [] => 0
  | y :: ys => if y = x then 0 else pyIndexOf x ys + 1

/-- Lines 266-282: when no marker lies in the padded range, take the
segments nearest to the start and end times and everything between them. -/
def fallbackSegs (segs : List (Nat × String)) (startT endT : Nat) : List (Nat × String) :=
  match segs with
  | [] => []
  | x :: xs =>
    let c1 := pyMinBy (fun sg => natDist sg.1 startT) x xs
    let c2 := pyMinBy (fun sg => natDist sg.1 endT) x xs
    let i1 := pyIndexOf c1 (x :: xs)
    let i2 := pyIndexOf c2 (x :: xs)
    let lo := if i1 > i2 then i2 else i1
    let hi := if i1 > i2 then i1 else i2
    ((x :: xs).drop lo).take (hi - lo + 1)

/-- Lines 254-263: the formatted segments whose timestamps fall in
`[start - 30, min(duration, end + 30)]` (the lower bound saturates at 0
exactly like Python `max(0, ...)`). -/
def relevantSegments (segs : List (Nat × String)) (startT endT duration : Nat) :
    List String :=
  let startPad := startT - 30
  let endPad := min duration (endT + 30)
  (segs.filter (fun sg => decide (startPad ≤ sg.1) && decide (sg.1 ≤ endPad))).map fmtSeg

/-- `extract_transcript_segment` (app.py lines 205-288). -/
def extract_transcript_segment (transcript : String) (startT endT duration : Nat) :
    String :=
  if transcript = "" then ""
  else if endT - startT < 60 then transcript
  else
    let segs := parseSegments transcript
    if segs.isEmpty then transcript
    else
      let rel := relevantSegments segs startT endT duration
      let rel2 := if rel.isEmpty then (fallbackSegs segs startT endT).map fmtSeg else rel
      if !rel2.isEmpty then joinSep "\n\n" rel2 else transcript

/-! ### Concrete scenario data used by the claim theorems and witnesses -/

/-- Ten per-segment transcription results in which segments 2 and 5
(0-based) failed and contributed empty strings. -/
def ex10 : List String :=
  ["Alpha one.", "Bravo two.", "", "Delta four.", "Echo five.", "",
   "Golf seven.", "Hotel eight.", "India nine.", "Juliet ten."]

/-- The eight successful fragments of `ex10`, in order. -/
def ex10successes : List String :=
  ["Alpha one.", "Bravo two.", "Delta four.", "Echo five.",
   "Golf seven.", "Hotel eight.", "India nine.", "Juliet ten."]

/-- A state holding every kind of derived data of video `v1`, as left by a
previous processing run: transcript, audio, a temp file, the main answer
cache file, the time-window cache file, the vector collection, a session
history, and a memory-cache entry. -/
def exC2 : Sys :=
  { transcripts := ["v1.txt"]
    audioFiles := ["v1.mp3"]
    tempFiles := ["v1_chunk_0.mp3"]
    cacheFiles := [("v1.json", [("oldhash", "old answer")]),
                   ("v1_segments.json", [("hs", "staleSeg")])]
    collections := [("youtube_transcript_v1", ["old chunk"])]
    convSessions := [("v1_123", [("q", "a")])]
    memCache := [("v1", [("memhash", "stale mem answer")])] }

/-- A state whose qa_system memory cache already holds a non-follow-up
answer for the question `describe the video` in English standard mode, and
whose session has one prior turn. -/
def exC4 : Sys :=
  { transcripts := ["v1.txt"]
    audioFiles := []
    tempFiles := []
    cacheFiles := []
    collections := []
    convSessions := [("v1_1700000000", [("earlier question", "earlier answer")])]
    memCache := [("v1", [(qaFingerprint "describe the video" "en" false, "STALE")])] }

/-- The endpoint run for `describe the video` explicitly flagged as a
follow-up (`is_followup = true` in the request body): the text itself does
not match the follow-up heuristic. -/
def exC4Run : AskResult :=
  askRegular "describe the video" "en" false (some true) "v1" "v1_1700000000"
    "My Great Talk" "This transcript is long enough for QA."
    ["chunk context"] (fun _ _ => "FRESH") exC4

def sysEmpty : Sys :=
  { transcripts := [], audioFiles := [], tempFiles := [], cacheFiles := []
    collections := [], convSessions := [], memCache := [] }

/-- First ask of a non-follow-up question whose chat completion comes back
empty (the capability returned only whitespace). -/
def exC5Run1 : AskResult :=
  askRegular "tell me about the video" "en" false (some false) "v1" "sess1"
    "My Great Talk" "The talk covers testing strategies in depth."
    ["ctx chunk"] (fun _ _ => "") sysEmpty

/-- The identical repeat ask on the state left by `exC5Run1`. -/
def exC5Run2 : AskResult :=
  askRegular "tell me about the video" "en" false (some false) "v1" "sess1"
    "My Great Talk" "The talk covers testing strategies in depth."
    ["ctx chunk"] (fun _ _ => "") exC5Run1.sys

/-- A tracker state mid-job: 1 of 5 chunks done, percentage 20. -/
def exProgress : Progress :=
  { message := "m", percentage := 20, videoId := some "v"
    processingType := "chunked", chunksTotal := 5, chunksCompleted := 1 }

/-- A 3600-second source transcript with timestamp markers at 0:05, 9:40,
10:50 and 12:00; the 9:40 fragment continues over an unmarked line. -/
def exC9Transcript : String :=
  "[0:05] Intro words\n[9:40] Deep dive begins\nmore detail here\n[10:50] Second topic\n[12:00] Closing"

/-- The segments `parseSegments` produces for `exC9Transcript`. -/
def exC9Segs : List (Nat × String) :=
  [(5, "Intro words"), (580, "Deep dive begins more detail here"),
   (650, "Second topic"), (720, "Closing")]

/-- The claim range for C9: timestamps within `[570, 690]`
(start 600 and end 660 padded by 30 seconds on each side). -/
def inC9Range (sg : Nat × String) : Bool :=
  decide (570 ≤ sg.1) && decide (sg.1 ≤ 690)

/-! ## Helper lemmas -/

theorem alookup_aupdate_self {α : Type} (k : String) (v : α) (l : List (String × α)) :
    alookup k (aupdate k v l) = some v := by
  simp [alookup, aupdate]

theorem alookup_filter_ne {α : Type} (k k' : String) (l : List (String × α)) (h : k' ≠ k) :
    alookup k' (l.filter (fun p => p.1 ≠ k)) = alookup k' l := by
  induction l with
  | nil => rfl
  | cons p rest ih =>
    simp only [decide_not] at ih ⊢
    by_cases hp : p.1 = k
    · have hk : p.1 ≠ k' := fun hh => h (hh ▸ hp)
      simp [List.filter_cons, hp, alookup, hk, Ne.symm h, ih]
    · simp [List.filter_cons, hp, alookup, ih]

theorem alookup_filter_self {α : Type} (k : String) (l : List (String × α)) :
    alookup k (l.filter (fun p => p.1 ≠ k)) = none := by
  induction l with
  | nil => rfl
  | cons p rest ih =>
    simp only [decide_not] at ih ⊢
    by_cases hp : p.1 = k
    · simp [List.filter_cons, hp, ih]
    · simp [List.filter_cons, hp, alookup, hp, ih]

theorem alookup_aupdate_ne {α : Type} (k k' : String) (v : α) (l : List (String × α))
    (h : k' ≠ k) : alookup k' (aupdate k v l) = alookup k' l := by
  have hk : ¬(k = k') := fun hh => h hh.symm
  simp only [aupdate, alookup, if_neg hk]
  exact alookup_filter_ne k k' l h

theorem append_left_ne (v a b : String) (h : a.data.length ≠ b.data.length) :
    v ++ a ≠ v ++ b := by
  intro he
  have hd2 : v.data ++ a.data = v.data ++ b.data := congrArg String.data he
  have := congrArg List.length hd2
  simp [List.length_append] at this
  exact h this

theorem appendTurn_cacheFiles (sessionId question answer : String) (s : Sys) :
    (appendTurn sessionId question answer s).cacheFiles = s.cacheFiles := rfl

theorem saveToCache_convSessions (hashKey answer videoId : String) (s : Sys) :
    (save_to_cache hashKey answer videoId s).convSessions = s.convSessions := rfl

theorem getCachedAnswer_convSessions (hashKey videoId : String) (s : Sys) :
    (get_cached_answer hashKey videoId s).2.convSessions = s.convSessions := by
  unfold get_cached_answer getCachedAnswerDisk
  repeat' split
  all_goals rfl

/-- The `ask` endpoint for a request explicitly *not* flagged follow-up,
when the app-level cache holds a truthy answer under the fingerprint:
the cached answer is returned verbatim with the cache-hit flag, no
chat-completion call happens, and only the conversation history changes. -/
theorem askRegular_nonfollowup_hit (question language : String) (useAgent : Bool)
    (videoId sessionId videoTitle transcript : String)
    (retrieved : List String) (oracle : ChatOracle) (s : Sys)
    (hc : pyTruthy ((alookup (videoId ++ ".json") s.cacheFiles).bind
        (alookup (appFingerprint question language false))) = true) :
    askRegular question language useAgent (some false) videoId sessionId videoTitle
        transcript retrieved oracle s =
      { answer := (((alookup (videoId ++ ".json") s.cacheFiles).bind
            (alookup (appFingerprint question language false))).getD "")
        cachedFlag := true, llmCalls := 0
        appCacheRead := (alookup (videoId ++ ".json") s.cacheFiles).isSome
        appCacheWrote := false, qaCacheRead := false, qaCacheWrote := false
        promptHistory := none
        sys := appendTurn sessionId question
          (((alookup (videoId ++ ".json") s.cacheFiles).bind
            (alookup (appFingerprint question language false))).getD "") s } := by
  simp [askRegular, classifyFollowup, hc]

/-- The `ask` endpoint for a request explicitly not flagged follow-up, on
an app-level cache miss: `ask_question` runs and the answer is written
back under the app fingerprint. -/
theorem askRegular_nonfollowup_miss (question language : String) (useAgent : Bool)
    (videoId sessionId videoTitle transcript : String)
    (retrieved : List String) (oracle : ChatOracle) (s : Sys)
    (hc : pyTruthy ((alookup (videoId ++ ".json") s.cacheFiles).bind
        (alookup (appFingerprint question language false))) = false) :
    askRegular question language useAgent (some false) videoId sessionId videoTitle
        transcript retrieved oracle s =
      (let qr := ask_question question transcript videoId language useAgent none
          videoTitle retrieved oracle s
       let answer := if language = "ar" && useAgent then stripFinalAnswerMarker qr.answer
                     else qr.answer
       { answer := answer, cachedFlag := false, llmCalls := qr.llmCalls
         appCacheRead := (alookup (videoId ++ ".json") s.cacheFiles).isSome
         appCacheWrote := true
         qaCacheRead := qr.cacheRead, qaCacheWrote := qr.cacheWrote
         promptHistory := qr.promptHistory
         sys := appendTurn sessionId question answer
           { qr.sys with
               cacheFiles :=
                 aupdate (videoId ++ ".json")
                   (aupdate (appFingerprint question language false) answer
                     ((alookup (videoId ++ ".json") qr.sys.cacheFiles).getD []))
                   qr.sys.cacheFiles } }) := by
  simp [askRegular, classifyFollowup, hc]

/-- The `ask` endpoint for a request explicitly flagged follow-up: the
app-level cache is neither read nor written, `ask_question` receives the
session history, and only the history-append touches the session store. -/
theorem askRegular_followup_spec (question language : String) (useAgent : Bool)
    (videoId sessionId videoTitle transcript : String)
    (retrieved : List String) (oracle : ChatOracle) (s : Sys) :
    askRegular question language useAgent (some true) videoId sessionId videoTitle
        transcript retrieved oracle s =
      (let hist := (alookup sessionId s.convSessions).getD []
       let qr := ask_question question transcript videoId language useAgent (some hist)
          videoTitle retrieved oracle s
       let answer := if language = "ar" && useAgent then stripFinalAnswerMarker qr.answer
                     else qr.answer
       { answer := answer, cachedFlag := false, llmCalls := qr.llmCalls
         appCacheRead := false, appCacheWrote := false
         qaCacheRead := qr.cacheRead, qaCacheWrote := qr.cacheWrote
         promptHistory := qr.promptHistory
         sys := appendTurn sessionId question answer qr.sys }) := by
  simp only [askRegular, classifyFollowup, Bool.not_true, Bool.and_false, if_neg, if_false]
  rfl

/-- `ask_question` hands prompt construction either nothing (early return
or cache hit) or exactly the conversation-history argument. -/
theorem askQuestion_promptHistory (question transcript videoId language : String)
    (useAgent : Bool) (conversationHistory : Option (List (String × String)))
    (videoTitle : String) (retrieved : List String) (oracle : ChatOracle) (s : Sys) :
    (ask_question question transcript videoId language useAgent conversationHistory
        videoTitle retrieved oracle s).promptHistory = none ∨
    (ask_question question transcript videoId language useAgent conversationHistory
        videoTitle retrieved oracle s).promptHistory =
      some (conversationHistory.getD []) := by
  unfold ask_question
  dsimp only
  repeat' split
  all_goals first
    | exact Or.inl rfl
    | exact Or.inr rfl

/-- `ask_question` never touches the conversation-session store. -/
theorem askQuestion_convSessions (question transcript videoId language : String)
    (useAgent : Bool) (conversationHistory : Option (List (String × String)))
    (videoTitle : String) (retrieved : List String) (oracle : ChatOracle) (s : Sys) :
    (ask_question question transcript videoId language useAgent conversationHistory
        videoTitle retrieved oracle s).sys.convSessions = s.convSessions := by
  unfold ask_question
  dsimp only
  repeat' split
  all_goals first
    | rfl
    | (rw [saveToCache_convSessions, getCachedAnswer_convSessions])
    | (rw [getCachedAnswer_convSessions])

/-- Appending a turn keeps the session history at ten turns or fewer. -/
theorem appendTurn_len (sessionId question answer : String) (s : Sys)
    (h : ((alookup sessionId s.convSessions).getD []).length ≤ 10) :
    ((alookup sessionId
      (appendTurn sessionId question answer s).convSessions).getD []).length ≤ 10 := by
  unfold appendTurn
  simp only [alookup_aupdate_self, Option.getD_some]
  split
  next hgt =>
    simp only [List.length_drop, List.length_append, List.length_cons, List.length_nil] at *
    omega
  next hgt =>
    simp only [List.length_append, List.length_cons, List.length_nil] at *
    omega

theorem isInfix_infixOfGo (pat hay : List Char) (h : pat <:+: hay) :
    infixOfGo pat hay = true := by
  induction hay with
  | nil =>
    rw [List.infix_nil] at h
    simp [infixOfGo, h]
  | cons c rest ih =>
    rw [infixOfGo]
    rcases List.infix_cons_iff.mp h with hp | hi
    · simp [List.isPrefixOf_iff_prefix, hp]
    · simp [ih hi]

/-- Any string assembled around `pat` contains `pat` as a substring. -/
theorem containsSub_of_data (hay pat : String) (pre post : List Char)
    (h : hay.data = pre ++ pat.data ++ post) : containsSub hay pat = true := by
  apply isInfix_infixOfGo
  exact ⟨pre, post, by rw [← h]⟩

/-- The user message of `generate_prompt` embeds the conversation-context
block verbatim. -/
theorem generatePrompt_user_contains (question : String) (ctx : List String)
    (language : String) (hist : List (String × String)) :
    containsSub (generate_prompt question ctx language hist).user
      (convContext language hist) = true := by
  rw [generate_prompt]
  by_cases hl : language = "ar"
  · rw [if_pos hl]
    exact containsSub_of_data _ _
      ("سؤال: " ++ question ++ "\n\nمقتطفات من نص الفيديو:\n" ++
        joinSep "\n\n---\n\n" ctx ++ "\n\n").data
      "\n\nالرجاء الإجابة على السؤال بدقة استنادًا فقط إلى مقتطفات النص المقدمة.".data
      (by simp)
  · rw [if_neg hl]
    exact containsSub_of_data _ _
      ("Question: " ++ question ++ "\n\nTranscript excerpts:\n" ++
        joinSep "\n\n---\n\n" ctx ++ "\n\n").data
      "\n\nPlease answer the question accurately based only on the provided transcript excerpts.".data
      (by simp)

/-- The user message of `generate_agent_prompt` embeds the
conversation-context block verbatim. -/
theorem generateAgentPrompt_user_contains (question : String) (ctx : List String)
    (language : String) (hist : List (String × String)) :
    containsSub (generate_agent_prompt question ctx language hist).user
      (convContext language hist) = true := by
  rw [generate_agent_prompt]
  by_cases hl : language = "ar"
  · rw [if_pos hl]
    exact containsSub_of_data _ _
      ("سؤال: " ++ question ++ "\n\nمقتطفات من نص الفيديو:\n" ++
        joinSep "\n\n---\n\n" ctx ++ "\n\n").data
      "\n\nالرجاء التفكير خطوة بخطوة ثم تقديم إجابتك النهائية.".data
      (by simp)
  · rw [if_neg hl]
    exact containsSub_of_data _ _
      ("Question: " ++ question ++ "\n\nTranscript excerpts:\n" ++
        joinSep "\n\n---\n\n" ctx ++ "\n\n").data
      "\n\nPlease think step-by-step and then provide your final answer.".data
      (by simp)

theorem pyMinBy_cons (f : Nat × String → Nat) (x y : Nat × String)
    (ys : List (Nat × String)) :
    pyMinBy f x (y :: ys) = pyMinBy f (if f y < f x then y else x) ys := rfl

/-- The Python `min(..., key=f)` result is an element of the list. -/
theorem pyMinBy_mem (f : Nat × String → Nat) (x : Nat × String)
    (xs : List (Nat × String)) : pyMinBy f x xs ∈ x :: xs := by
  induction xs generalizing x with
  | nil => simp [pyMinBy]
  | cons y ys ih =>
    rw [pyMinBy_cons]
    rcases List.mem_cons.mp (ih (if f y < f x then y else x)) with hm | hm
    · rw [hm]
      by_cases hc : f y < f x <;> simp [hc]
    · simp [List.mem_cons]
      tauto

/-- The Python `min(..., key=f)` result minimizes the key. -/
theorem pyMinBy_le (f : Nat × String → Nat) (x : Nat × String)
    (xs : List (Nat × String)) : ∀ z ∈ x :: xs, f (pyMinBy f x xs) ≤ f z := by
  induction xs generalizing x with
  | nil =>
    intro z hz
    simp at hz
    simp [pyMinBy, hz]
  | cons y ys ih =>
    intro z hz
    rw [pyMinBy_cons]
    have hxle : f (if f y < f x then y else x) ≤ f x := by
      by_cases hc : f y < f x
      · simp [hc]
        omega
      · simp [hc]
    have hyle : f (if f y < f x then y else x) ≤ f y := by
      by_cases hc : f y < f x
      · simp [hc]
      · simp [hc]
        omega
    have hmin := ih (if f y < f x then y else x)
    have hminhd : f (pyMinBy f (if f y < f x then y else x) ys) ≤
        f (if f y < f x then y else x) := hmin _ (List.mem_cons_self _ _)
    rcases List.mem_cons.mp hz with rfl | hz2
    · exact le_trans hminhd hxle
    · rcases List.mem_cons.mp hz2 with rfl | hzys
      · exact le_trans hminhd hyle
      · exact hmin z (List.mem_cons_of_mem _ hzys)

/-- `list.index` of a member is a valid position. -/
theorem pyIndexOf_lt_length (x : Nat × String) (l : List (Nat × String)) (h : x ∈ l) :
    pyIndexOf x l < l.length := by
  induction l with
  | nil => cases h
  | cons y ys ih =>
    by_cases hy : y = x
    · simp [pyIndexOf, hy]
    · have hx : x ∈ ys := by
        rcases List.mem_cons.mp h with h1 | h2
        · exact absurd h1.symm hy
        · exact h2
      simp only [pyIndexOf, if_neg hy, List.length_cons]
      have := ih hx
      omega

theorem slice_ne_nil {α : Type} (l : List α) (lo hi : Nat) (hlo : lo < l.length) :
    (l.drop lo).take (hi - lo + 1) ≠ [] := by
  intro he
  have := congrArg List.length he
  simp [List.length_take, List.length_drop] at this
  omega

/-! ## Claim theorems -/

/-- Claim C1, counterexample.  With results `ex10` (ten segments of which
numbers 2 and 5 failed), the merged transcript holds only the eight
successful fragments and no empty marker at any position: the claimed
layout of ten entries with explicit empty markers at the failed ordinals
is false on the code, which skips falsy results (`if not segment_text:
continue`). -/
theorem C1_counterexample :
    fragmentsOf (mergeTranscript ex10) = ex10successes ∧
    (fragmentsOf (mergeTranscript ex10)).length = 8 ∧
    ∀ l ∈ fragmentsOf (mergeTranscript ex10), l ≠ "" := by decide

/-- Claim C1, amended.  When 2 of 10 segments fail transcription, the
failed fragments are silently skipped: the merged transcript equals the
merge of just the eight successful fragments (so later fragments shift
down and no marker preserves the ordinal alignment), and the job still
completes rather than erroring. -/
theorem C1_amended_silent_skip :
    mergeTranscript ex10 = mergeTranscript ex10successes ∧
    transcribe_segments ex10 (some "en") none =
      transcribe_segments ex10successes (some "en") none ∧
    fragmentsOf (mergeTranscript ex10) = ex10successes ∧
    directProcessStatus ex10 = "complete" := by decide

/-- Claim C2, counterexample.  After `clean_video_data` for `v1`, the
qa_system memory cache still returns the stale answer, and the time-window
cache file `v1_segments.json` still holds its stale entry: derived state
of the previous run remains retrievable once a new run has started. -/
theorem C2_counterexample :
    (get_cached_answer "memhash" "v1" (cleanVideoData "v1" exC2)).1 =
      some "stale mem answer" ∧
    alookup "v1_segments.json" (cleanVideoData "v1" exC2).cacheFiles =
      some [("hs", "staleSeg")] := by decide

/-- Claim C2, amended.  `clean_video_data` removes the transcript file,
the main answer-cache file `{id}.json` and the vector collection, but it
leaves the qa_system in-memory answer cache entirely untouched and never
deletes the time-window cache file `{id}_segments.json`. -/
theorem C2_amended_clean_scope (s : Sys) (videoId : String) :
    (videoId ++ ".txt") ∉ (cleanVideoData videoId s).transcripts ∧
    alookup (videoId ++ ".json") (cleanVideoData videoId s).cacheFiles = none ∧
    alookup ("youtube_transcript_" ++ videoId) (cleanVideoData videoId s).collections = none ∧
    (cleanVideoData videoId s).memCache = s.memCache ∧
    alookup (videoId ++ "_segments.json") (cleanVideoData videoId s).cacheFiles =
      alookup (videoId ++ "_segments.json") s.cacheFiles := by
  refine ⟨?_, ?_, ?_, rfl, ?_⟩
  · intro hmem
    rw [cleanVideoData] at hmem
    simp only [List.mem_filter, decide_not] at hmem
    simp at hmem
  · exact alookup_filter_self _ _
  · exact alookup_filter_self _ _
  · exact alookup_filter_ne _ _ _
      (append_left_ne videoId "_segments.json" ".json" (by decide))

/-- Claim C3, code bug.  The joining loop checks the last character of the
accumulated transcript, which is the newline appended by the previous
iteration, instead of the previous fragment itself, contradicting the
comment right above it in the source.  On `["Hello.", "world"]` the earlier
fragment ends in terminal punctuation and the later starts lowercase, so
per the claim (and the code comment) they must be newline-joined; the code
space-joins them. -/
theorem C3_code_bug_eval :
    mergeTranscript ["Hello.", "world"] = "Hello. world" ∧
    transcribe_segments ["Hello.", "world"] (some "en") none = "Hello. world" ∧
    mergeTranscript ["Hello.", "world"] ≠ "Hello." ++ "\n" ++ "world" ∧
    endsTerminal "Hello." = true ∧ startsLowerStr "world" = true := by decide

/-- Claim C4, counterexample.  The question `describe the video`,
explicitly flagged as a follow-up but not matching the textual follow-up
heuristic, reads the qa_system non-follow-up answer cache and returns its
stale entry without any chat-completion call. -/
theorem C4_counterexample :
    classifyFollowup (some true) "describe the video"
      ((alookup "v1_1700000000" exC4.convSessions).getD []) = true ∧
    is_followup_question "describe the video" = false ∧
    exC4Run.qaCacheRead = true ∧
    exC4Run.answer = "STALE" ∧
    exC4Run.llmCalls = 0 := by decide

/-- Claim C4, amended.  At the app layer a follow-up question never reads
or writes the app-level answer cache, prompt construction receives exactly
the session history (at most 10 turns, and the generated user message
embeds the conversation-context block of those turns), and the history
stays capped at 10; but the qa_system layer re-derives follow-up status
from its own text heuristic and may still consult its cache (see the
counterexample). -/
theorem C4_amended_app_layer_bypass (question language : String) (useAgent : Bool)
    (videoId sessionId videoTitle transcript : String) (retrieved : List String)
    (oracle : ChatOracle) (s : Sys)
    (hlen : ((alookup sessionId s.convSessions).getD []).length ≤ 10) :
    (askRegular question language useAgent (some true) videoId sessionId videoTitle
        transcript retrieved oracle s).appCacheRead = false ∧
    (askRegular question language useAgent (some true) videoId sessionId videoTitle
        transcript retrieved oracle s).appCacheWrote = false ∧
    (∀ hturns, (askRegular question language useAgent (some true) videoId sessionId
        videoTitle transcript retrieved oracle s).promptHistory = some hturns →
        hturns = (alookup sessionId s.convSessions).getD [] ∧ hturns.length ≤ 10) ∧
    (∀ ctx hist2, containsSub (generate_prompt question ctx language hist2).user
          (convContext language hist2) = true ∧
        containsSub (generate_agent_prompt question ctx language hist2).user
          (convContext language hist2) = true) ∧
    ((alookup sessionId (askRegular question language useAgent (some true) videoId
        sessionId videoTitle transcript retrieved oracle s).sys.convSessions).getD
      []).length ≤ 10 := by
  rw [askRegular_followup_spec]
  dsimp only
  refine ⟨rfl, rfl, ?_, ?_, ?_⟩
  · intro hturns hh
    rcases askQuestion_promptHistory question transcript videoId language useAgent
        (some ((alookup sessionId s.convSessions).getD [])) videoTitle retrieved oracle s with
      hnone | hsome
    · rw [hnone] at hh; cases hh
    · rw [hsome] at hh
      simp only [Option.getD_some, Option.some.injEq] at hh
      exact ⟨hh.symm, hh ▸ hlen⟩
  · intro ctx hist2
    exact ⟨generatePrompt_user_contains question ctx language hist2,
      generateAgentPrompt_user_contains question ctx language hist2⟩
  · apply appendTurn_len
    rw [askQuestion_convSessions]
    exact hlen

/-- Claim C4 witness: the amended theorem applied at the concrete state
`exC4`. -/
theorem C4_amended_app_layer_bypass_witness :
    ((alookup "v1_1700000000" exC4.convSessions).getD []).length ≤ 10 ∧
    (askRegular "describe the video" "en" false (some true) "v1" "v1_1700000000"
      "My Great Talk" "This transcript is long enough for QA."
      ["chunk context"] (fun _ _ => "FRESH") exC4).appCacheRead = false ∧
    (askRegular "describe the video" "en" false (some true) "v1" "v1_1700000000"
      "My Great Talk" "This transcript is long enough for QA."
      ["chunk context"] (fun _ _ => "FRESH") exC4).appCacheWrote = false :=
  ⟨by decide,
   (C4_amended_app_layer_bypass "describe the video" "en" false "v1" "v1_1700000000"
     "My Great Talk" "This transcript is long enough for QA."
     ["chunk context"] (fun _ _ => "FRESH") exC4 (by decide)).1,
   (C4_amended_app_layer_bypass "describe the video" "en" false "v1" "v1_1700000000"
     "My Great Talk" "This transcript is long enough for QA."
     ["chunk context"] (fun _ _ => "FRESH") exC4 (by decide)).2.1⟩

/-- Claim C5, counterexample.  An answer was cached for the fingerprint of
`tell me about the video` (the chat completion returned an empty string,
which was written to the cache), yet repeating the identical non-follow-up
question is a cache miss: the `cached` flag is false and a second
chat-completion call is made, because Python truthiness treats the cached
empty string as a miss. -/
theorem C5_counterexample :
    alookup (appFingerprint "tell me about the video" "en" false)
      ((alookup "v1.json" exC5Run1.sys.cacheFiles).getD []) = some "" ∧
    exC5Run2.cachedFlag = false ∧
    exC5Run2.llmCalls = 1 := by decide

/-- Claim C5, amended.  Provided the first answer is a non-empty string,
asking the identical question again, explicitly non-follow-up with the
same language and mode, returns that answer verbatim with the cache-hit
flag and makes no chat-completion call. -/
theorem C5_amended_cache_roundtrip (question language : String) (useAgent : Bool)
    (videoId sessionId videoTitle transcript : String) (retrieved : List String)
    (oracle : ChatOracle) (s : Sys)
    (h : (askRegular question language useAgent (some false) videoId sessionId videoTitle
        transcript retrieved oracle s).answer ≠ "") :
    (askRegular question language useAgent (some false) videoId sessionId videoTitle
        transcript retrieved oracle
        (askRegular question language useAgent (some false) videoId sessionId videoTitle
          transcript retrieved oracle s).sys).answer =
      (askRegular question language useAgent (some false) videoId sessionId videoTitle
        transcript retrieved oracle s).answer ∧
    (askRegular question language useAgent (some false) videoId sessionId videoTitle
        transcript retrieved oracle
        (askRegular question language useAgent (some false) videoId sessionId videoTitle
          transcript retrieved oracle s).sys).cachedFlag = true ∧
    (askRegular question language useAgent (some false) videoId sessionId videoTitle
        transcript retrieved oracle
        (askRegular question language useAgent (some false) videoId sessionId videoTitle
          transcript retrieved oracle s).sys).llmCalls = 0 := by
  by_cases hc : pyTruthy ((alookup (videoId ++ ".json") s.cacheFiles).bind
      (alookup (appFingerprint question language false))) = true
  · rw [askRegular_nonfollowup_hit question language useAgent videoId sessionId videoTitle
      transcript retrieved oracle s hc]
    dsimp only
    have hc2 : pyTruthy ((alookup (videoId ++ ".json")
        (appendTurn sessionId question
          (((alookup (videoId ++ ".json") s.cacheFiles).bind
            (alookup (appFingerprint question language false))).getD "") s).cacheFiles).bind
        (alookup (appFingerprint question language false))) = true := by
      rw [appendTurn_cacheFiles]; exact hc
    rw [askRegular_nonfollowup_hit question language useAgent videoId sessionId videoTitle
      transcript retrieved oracle _ hc2]
    refine ⟨?_, rfl, rfl⟩
    dsimp only
    rw [appendTurn_cacheFiles]
  · have hc' : pyTruthy ((alookup (videoId ++ ".json") s.cacheFiles).bind
        (alookup (appFingerprint question language false))) = false := by
      revert hc
      cases pyTruthy ((alookup (videoId ++ ".json") s.cacheFiles).bind
        (alookup (appFingerprint question language false))) <;> simp
    rw [askRegular_nonfollowup_miss question language useAgent videoId sessionId videoTitle
      transcript retrieved oracle s hc'] at h ⊢
    dsimp only at h ⊢
    generalize hq : ask_question question transcript videoId language useAgent none
      videoTitle retrieved oracle s = qr at h ⊢
    generalize hA : (if language = "ar" && useAgent then stripFinalAnswerMarker qr.answer
      else qr.answer) = A at h ⊢
    have hc2 : pyTruthy ((alookup (videoId ++ ".json")
        (appendTurn sessionId question A
          { qr.sys with
              cacheFiles :=
                aupdate (videoId ++ ".json")
                  (aupdate (appFingerprint question language false) A
                    ((alookup (videoId ++ ".json") qr.sys.cacheFiles).getD []))
                  qr.sys.cacheFiles }).cacheFiles).bind
        (alookup (appFingerprint question language false))) = true := by
      rw [appendTurn_cacheFiles]
      dsimp only
      rw [alookup_aupdate_self]
      simp only [Option.some_bind, alookup_aupdate_self]
      simp [pyTruthy, h]
    rw [askRegular_nonfollowup_hit question language useAgent videoId sessionId videoTitle
      transcript retrieved oracle _ hc2]
    refine ⟨?_, rfl, rfl⟩
    dsimp only
    rw [appendTurn_cacheFiles]
    dsimp only
    rw [alookup_aupdate_self]
    simp [alookup_aupdate_self]

/-- Claim C5 witness: the amended round trip at a concrete state where the
chat completion returns a non-empty answer. -/
theorem C5_amended_cache_roundtrip_witness :
    (askRegular "tell me about the video" "en" false (some false) "v1" "sess1"
      "My Great Talk" "The talk covers testing strategies in depth."
      ["ctx chunk"] (fun _ _ => "A real answer.") sysEmpty).answer ≠ "" ∧
    (askRegular "tell me about the video" "en" false (some false) "v1" "sess1"
      "My Great Talk" "The talk covers testing strategies in depth."
      ["ctx chunk"] (fun _ _ => "A real answer.")
      (askRegular "tell me about the video" "en" false (some false) "v1" "sess1"
        "My Great Talk" "The talk covers testing strategies in depth."
        ["ctx chunk"] (fun _ _ => "A real answer.") sysEmpty).sys).cachedFlag = true ∧
    (askRegular "tell me about the video" "en" false (some false) "v1" "sess1"
      "My Great Talk" "The talk covers testing strategies in depth."
      ["ctx chunk"] (fun _ _ => "A real answer.")
      (askRegular "tell me about the video" "en" false (some false) "v1" "sess1"
        "My Great Talk" "The talk covers testing strategies in depth."
        ["ctx chunk"] (fun _ _ => "A real answer.") sysEmpty).sys).llmCalls = 0 :=
  ⟨by decide,
   (C5_amended_cache_roundtrip "tell me about the video" "en" false "v1" "sess1"
     "My Great Talk" "The talk covers testing strategies in depth."
     ["ctx chunk"] (fun _ _ => "A real answer.") sysEmpty (by decide)).2.1,
   (C5_amended_cache_roundtrip "tell me about the video" "en" false "v1" "sess1"
     "My Great Talk" "The talk covers testing strategies in depth."
     ["ctx chunk"] (fun _ _ => "A real answer.") sysEmpty (by decide)).2.2⟩

/-- Claim C6, counterexample.  The tracker knows `chunks_total = 5` from an
earlier update.  An update carrying `chunks_completed = 2` with an explicit
percentage 90 leaves the percentage at 90 (not 40), and an update carrying
only `chunks_completed = 3` leaves the stale percentage 20 (not 60): the
derived percentage is not applied whenever both counters are known to the
tracker, because the code tests the `chunks_total` argument of the call,
not the stored value. -/
theorem C6_counterexample :
    (update_progress exProgress "m2" (some 90) none none none (some 2)).chunksTotal = 5 ∧
    (update_progress exProgress "m2" (some 90) none none none (some 2)).chunksCompleted = 2 ∧
    (update_progress exProgress "m2" (some 90) none none none (some 2)).percentage = 90 ∧
    (update_progress exProgress "m2" (some 90) none none none (some 2)).percentage ≠
      2 * 100 / 5 ∧
    (update_progress exProgress "m3" none none none none (some 3)).percentage = 20 ∧
    (update_progress exProgress "m3" none none none none (some 3)).percentage ≠
      3 * 100 / 5 := by decide

/-- Claim C6, amended.  The derived percentage `completed * 100 / total`
is applied exactly when one update call supplies both `chunks_completed`
and a nonzero `chunks_total` with `completed ≤ total`; in every other
update an explicitly supplied percentage wins (and with none supplied the
old percentage persists), regardless of what the tracker already stores. -/
theorem C6_amended_percentage_rule (s : Progress) (msg : String) (pct : Option Nat)
    (vid : Option String) (ptype : Option String) (ctot ccomp : Option Nat) :
    (∀ c targ, ccomp = some c → ctot = some targ → targ ≠ 0 → c ≤ targ →
      (update_progress s msg pct vid ptype ctot ccomp).percentage = c * 100 / targ) ∧
    ((ccomp = none ∨ ctot = none ∨ ctot = some 0 ∨
        (∃ c targ, ccomp = some c ∧ ctot = some targ ∧ targ < c)) →
      (update_progress s msg pct vid ptype ctot ccomp).percentage =
        (match pct with
         | some p => p
         | none => s.percentage)) := by
  constructor
  · intro c targ hc ht h0 hle
    subst hc; subst ht
    cases pct <;> cases vid <;> cases ptype <;>
      simp [update_progress, h0, hle]
  · intro hcase
    rcases hcase with hc | ht | ht0 | ⟨c, targ, hc, ht, hlt⟩
    · subst hc
      cases pct <;> cases vid <;> cases ptype <;> cases ctot <;> simp [update_progress]
    · subst ht
      cases pct <;> cases vid <;> cases ptype <;> cases ccomp <;> simp [update_progress]
    · subst ht0
      cases pct <;> cases vid <;> cases ptype <;> cases ccomp <;> simp [update_progress]
    · subst hc; subst ht
      have hgt : ¬ (c ≤ targ) := by omega
      cases pct <;> cases vid <;> cases ptype <;> simp [update_progress, hgt]

/-- Claim C6 witness: when the same call supplies both counters, the
percentage is in fact the derived one. -/
theorem C6_amended_percentage_rule_witness :
    (update_progress exProgress "m" (some 90) none none (some 5) (some 2)).percentage =
      2 * 100 / 5 :=
  (C6_amended_percentage_rule exProgress "m" (some 90) none none (some 5) (some 2)).1
    2 5 rfl rfl (by decide) (by decide)

/-- Claim C7.  A 5400-second source without `force_chunked` selects
chunked mode (over the 1800s threshold), uses 1200-second super-chunks,
plans `ceil(5400/1200) = 5` chunks, and the finished run records
`chunks_total = chunks_completed = 5` with status `complete` (also under
the listing derivation of status). -/
theorem C7_chunked_ninety_minutes :
    isLongVideo 5400 false = true ∧ chunkDuration 5400 = 1200 ∧ totalChunks 5400 = 5 ∧
    (processLongVideoFinal 5400).chunksTotal = 5 ∧
    (processLongVideoFinal 5400).chunksCompleted = 5 ∧
    (processLongVideoFinal 5400).processingStatus = "complete" ∧
    listingStatus true (processLongVideoFinal 5400) = "complete" := by decide

/-- Claim C8, counterexample.  `What?` and `what` normalize to the same
text, yet their time-window fingerprints differ, because the window cache
key hashes the raw question (and includes neither the follow-up flag nor
the mode): the claimed fingerprint recipe does not match the code. -/
theorem C8_counterexample :
    cleanQ "What?" = cleanQ "what" ∧
    windowFingerprint "What?" "en" (some 600) (some 660) ≠
      windowFingerprint "what" "en" (some 600) (some 660) := by decide

/-- Claim C8, amended.  The main answer-cache fingerprint hashes the
normalized question, the language and the follow-up flag (no mode, no
window), so questions with equal normalizations share a fingerprint; the
time-window fingerprint instead hashes the raw question with the window
bounds. -/
theorem C8_amended_fingerprint_normalization (q1 q2 language : String)
    (isFollowup : Bool) (h : cleanQ q1 = cleanQ q2) :
    appFingerprint q1 language isFollowup = appFingerprint q2 language isFollowup := by
  rw [appFingerprint, appFingerprint, h]

/-- Claim C8 witness: two spellings with equal normalization share the
main fingerprint. -/
theorem C8_amended_fingerprint_normalization_witness :
    cleanQ "Hello!" = cleanQ "hello" ∧
    appFingerprint "Hello!" "en" false = appFingerprint "hello" "en" false :=
  ⟨by decide,
   C8_amended_fingerprint_normalization "Hello!" "hello" "en" false (by decide)⟩

/-- Claim C9.  For a timestamp-scoped question with start 600, end 660 on
a 3600-second source, the extraction returns exactly the parsed fragments
whose markers lie in `[570, 690]` (the code computes `600 - 30` and
`min 3600 (660 + 30)`), formatted and double-newline-joined; when none lie
in range it falls back to a fragment nearest to 600 and one nearest to 660
by absolute time distance, together with every fragment between them. -/
theorem C9_window_selection (t : String) (segs : List (Nat × String))
    (hp : parseSegments t = segs) (hne : segs ≠ []) :
    (segs.filter inC9Range ≠ [] →
      extract_transcript_segment t 600 660 3600 =
        joinSep "\n\n" ((segs.filter inC9Range).map fmtSeg)) ∧
    (segs.filter inC9Range = [] →
      ∃ c1, c1 ∈ segs ∧ ∃ c2, c2 ∈ segs ∧
        (∀ y ∈ segs, natDist c1.1 600 ≤ natDist y.1 600) ∧
        (∀ y ∈ segs, natDist c2.1 660 ≤ natDist y.1 660) ∧
        extract_transcript_segment t 600 660 3600 =
          joinSep "\n\n" (((segs.drop (min (pyIndexOf c1 segs) (pyIndexOf c2 segs))).take
            (max (pyIndexOf c1 segs) (pyIndexOf c2 segs) -
              min (pyIndexOf c1 segs) (pyIndexOf c2 segs) + 1)).map fmtSeg)) := by
  have ht : t ≠ "" := by
    intro h0
    rw [h0] at hp
    have hemp : parseSegments "" = [] := rfl
    exact hne (by rw [← hp, hemp])
  have hrel : relevantSegments segs 600 660 3600 = (segs.filter inC9Range).map fmtSeg := rfl
  unfold extract_transcript_segment
  rw [if_neg ht, if_neg (by decide : ¬((660 : Nat) - 600 < 60)), hp]
  rw [if_neg (by simp [List.isEmpty_iff, hne])]
  dsimp only
  rw [hrel]
  constructor
  · intro hfil
    have hmapne : (segs.filter inC9Range).map fmtSeg ≠ [] := by
      simp [List.map_eq_nil_iff, hfil]
    simp [List.isEmpty_iff, hmapne]
  · intro hfil
    obtain ⟨x, xs, rfl⟩ := List.exists_cons_of_ne_nil hne
    refine ⟨pyMinBy (fun sg => natDist sg.1 600) x xs,
      pyMinBy_mem (fun sg => natDist sg.1 600) x xs,
      pyMinBy (fun sg => natDist sg.1 660) x xs,
      pyMinBy_mem (fun sg => natDist sg.1 660) x xs,
      fun y hy => pyMinBy_le (fun sg => natDist sg.1 600) x xs y hy,
      fun y hy => pyMinBy_le (fun sg => natDist sg.1 660) x xs y hy, ?_⟩
    have hmapnil : ((x :: xs).filter inC9Range).map fmtSeg = ([] : List String) := by
      rw [hfil]; rfl
    rw [hmapnil]
    have hfb : fallbackSegs (x :: xs) 600 660 =
        ((x :: xs).drop (min (pyIndexOf (pyMinBy (fun sg => natDist sg.1 600) x xs) (x :: xs))
          (pyIndexOf (pyMinBy (fun sg => natDist sg.1 660) x xs) (x :: xs)))).take
          (max (pyIndexOf (pyMinBy (fun sg => natDist sg.1 600) x xs) (x :: xs))
            (pyIndexOf (pyMinBy (fun sg => natDist sg.1 660) x xs) (x :: xs)) -
           min (pyIndexOf (pyMinBy (fun sg => natDist sg.1 600) x xs) (x :: xs))
            (pyIndexOf (pyMinBy (fun sg => natDist sg.1 660) x xs) (x :: xs)) + 1) := by
      unfold fallbackSegs
      dsimp only
      congr 1
      · split <;> omega
      · congr 1
        split <;> omega
    have hslice : fallbackSegs (x :: xs) 600 660 ≠ [] := by
      rw [hfb]
      apply slice_ne_nil
      have h1 := pyIndexOf_lt_length _ _ (pyMinBy_mem (fun sg => natDist sg.1 600) x xs)
      omega
    show (if (!((fallbackSegs (x :: xs) 600 660).map fmtSeg).isEmpty) = true
        then joinSep "\n\n" ((fallbackSegs (x :: xs) 600 660).map fmtSeg) else t) = _
    rw [hfb] at hslice ⊢
    have hfbempty : ((((x :: xs).drop
        (min (pyIndexOf (pyMinBy (fun sg => natDist sg.1 600) x xs) (x :: xs))
          (pyIndexOf (pyMinBy (fun sg => natDist sg.1 660) x xs) (x :: xs)))).take
        (max (pyIndexOf (pyMinBy (fun sg => natDist sg.1 600) x xs) (x :: xs))
          (pyIndexOf (pyMinBy (fun sg => natDist sg.1 660) x xs) (x :: xs)) -
         min (pyIndexOf (pyMinBy (fun sg => natDist sg.1 600) x xs) (x :: xs))
          (pyIndexOf (pyMinBy (fun sg => natDist sg.1 660) x xs) (x :: xs)) + 1)).map
        fmtSeg).isEmpty = false := by
      obtain ⟨z, zs, hz⟩ := List.exists_cons_of_ne_nil hslice
      rw [hz]
      rfl
    rw [hfbempty]
    rfl

/-- Claim C9 witness: the selection on a concrete parsed transcript whose
markers at 580 and 650 fall in the padded window while 5 and 720 do not. -/
theorem C9_window_selection_witness :
    parseSegments exC9Transcript = exC9Segs ∧
    exC9Segs.filter inC9Range ≠ [] ∧
    extract_transcript_segment exC9Transcript 600 660 3600 =
      joinSep "\n\n" ((exC9Segs.filter inC9Range).map fmtSeg) :=
  ⟨by decide, by decide,
   (C9_window_selection exC9Transcript exC9Segs (by decide) (by decide)).1 (by decide)⟩

/-- Claim C10.  For duration `d` with effective segment length `m` where
`0 < m ≤ d`, `split_audio` plans exactly `max(1, d / m) = d / m` segments,
segment `i` covering `[i*m, i*m + m)`; when `m` does not divide `d`, the
tail `[(d/m)*m, d)` is shorter than a segment and is covered by no planned
segment, so it is never extracted or transcribed. -/
theorem C10_split_plan (d m : Nat) (hm : 0 < m) (hdm : m ≤ d) :
    (plannedSegments d m).length = max 1 (d / m) ∧
    max 1 (d / m) = d / m ∧
    (∀ i (h : i < (plannedSegments d m).length),
      (plannedSegments d m).get ⟨i, h⟩ = (i * m, m)) ∧
    (¬ m ∣ d →
      (d / m) * m < d ∧
      ∀ u, (d / m) * m ≤ u → ∀ sg ∈ plannedSegments d m,
        ¬ (sg.1 ≤ u ∧ u < sg.1 + sg.2)) := by
  have hdiv : 1 ≤ d / m := (Nat.one_le_div_iff hm).mpr hdm
  refine ⟨?_, ?_, ?_, ?_⟩
  · simp [plannedSegments, segmentsCount]
  · omega
  · intro i h
    simp [plannedSegments, segmentsCount] at h ⊢
  · intro hnd
    constructor
    · have hle := Nat.div_mul_le_self d m
      have hmod : d % m ≠ 0 := fun hz => hnd (Nat.dvd_of_mod_eq_zero hz)
      have hdm2 := Nat.div_add_mod d m
      have hcomm : (d / m) * m = m * (d / m) := Nat.mul_comm _ _
      omega
    · intro u hu sg hsg
      rintro ⟨hs1, hs2⟩
      rw [plannedSegments] at hsg
      obtain ⟨i, hir, heq⟩ := List.mem_map.mp hsg
      have hi : i < segmentsCount d m := List.mem_range.mp hir
      rw [segmentsCount] at hi
      subst heq
      dsimp only at hs1 hs2
      have hib : i + 1 ≤ d / m := by omega
      have h2 : (i + 1) * m ≤ (d / m) * m := Nat.mul_le_mul_right m hib
      have h3 : i * m + m = (i + 1) * m := by ring
      omega

/-- Claim C10 witness: a 100-second input with 30-second segments plans
three full segments and leaves the 10-second tail unplanned. -/
theorem C10_split_plan_witness :
    0 < 30 ∧ 30 ≤ 100 ∧ (plannedSegments 100 30).length = max 1 (100 / 30) :=
  ⟨by decide, by decide, (C10_split_plan 100 30 (by decide) (by decide)).1⟩
